import Mathlib

/-!
Verification of the LoRA-download utility (`download_external_lora.py`) and of
the workflow configurator (`predict.py`) of this repository.

Strings are embedded as `List Char` (`Str`).  Python string operations used by
the source (`str.split`, `str.startswith`, `str.replace`, `str.lower`,
`"sep".join`, negative indexing) are modelled by executable Lean functions
below.  The relevant parts of the Python standard library
(`urllib.parse.urlparse`, `urllib.parse.parse_qs`, `os.path.join`,
`tarfile.TarFile.extractfile`) are modelled faithfully for the inputs this
code handles, following the documented CPython behaviour; each model carries a
comment stating the scope of the model.

Effectful code (`download`, the three provider downloads) is embedded as pure
functions over an explicit file-system state (`FS`) together with oracles for
the external collaborators (the `pget` fast-fetch subprocess, the
`hf_hub_download` client, a downloaded tar archive) and a trace of the
network/subprocess events that were issued.
-/

/-- Python strings, embedded as lists of characters. -/
abbrev Str := List Char

/-- Converts a Lean string literal to its character list. -/
def S (s : String) : Str := s.data

/-- Model of Python `s.split(sep)` for a one-character separator: the list of
(possibly empty) chunks between occurrences of `c`.  As in Python, the result
is never the empty list: `"".split(c) == [""]`. -/
def pySplit (c : Char) : Str → List Str
  | [] => [[]]
  | a :: rest =>
    match pySplit c rest with
    | [] => [[]]
    | h :: t => if a = c then [] :: h :: t else (a :: h) :: t

/-- Model of Python `l[-1]`, total: the last element, or the default for an
empty list.  Python raises `IndexError` on the empty list; every use below is
guarded so that the list is provably non-empty (`pySplit` never returns an
empty list). -/
def pyNeg1 (l : List Str) : Str := l.getD (l.length - 1) []

/-- Model of Python `l[-2]`, total: the second-to-last element, or the default
when the list has fewer than two elements.  Python raises `IndexError` in that
case; every use below is on a URL split containing at least three chunks. -/
def pyNeg2 (l : List Str) : Str := l.getD (l.length - 2) []

/-- Model of Python `s.startswith(pre)`. -/
def pyStartswith (s pre : Str) : Bool := List.isPrefixOf pre s

/-- Model of Python `s.replace(old, new)` for one-character arguments. -/
def pyReplace (old new : Char) (s : Str) : Str :=
  s.map (fun ch => if ch = old then new else ch)

/-- Model of Python `s.lower()`.  `Char.toLower` lowercases ASCII letters,
which matches Python on the ASCII query-parameter values handled here. -/
def pyLower (s : Str) : Str := s.map Char.toLower

/-- Model of Python `sep.join(parts)`. -/
def pyJoin (sep : Str) (parts : List Str) : Str := List.intercalate sep parts

/-- Splits a string at the first occurrence of `c`: returns the part before
and the part after (the separator removed).  When `c` does not occur, returns
the whole string and `[]`. -/
def splitAtFirst (c : Char) : Str → Str × Str
  | [] => ([], [])
  | a :: rest =>
    if a = c then ([], rest)
    else
      let p := splitAtFirst c rest
      (a :: p.1, p.2)

/-- The part of a string strictly before the first occurrence of `c` (the
whole string when `c` does not occur). -/
def takeUntil (c : Char) (s : Str) : Str := (splitAtFirst c s).1

/-- Drops everything up to and including the first occurrence of `"://"`;
`none` when the string has no `"://"`. -/
def afterSchemeSep : Str → Option Str
  | ':' :: '/' :: '/' :: rest => some rest
  | _ :: rest => afterSchemeSep rest
  | [] => none

/-- Model of `urllib.parse.urlparse(url)` restricted to the `path` and
`query` components, for absolute URLs of the form
`scheme://netloc[/path][?query][#fragment]` (the shape of every URL this code
dispatches on): the netloc extends to the first `/`, `?` or `#` after the
`://`; the fragment is split off at the first `#`, then the query at the
first `?`; the path is what remains. -/
def urlPathQuery (url : Str) : Str × Str :=
  match afterSchemeSep url with
  | some rest =>
    let afterNetloc := rest.dropWhile (fun ch => ch ≠ '/' && ch ≠ '?' && ch ≠ '#')
    splitAtFirst '?' (takeUntil '#' afterNetloc)
  | none => splitAtFirst '?' (takeUntil '#' url)

/-- Model of `urllib.parse.parse_qs(query)` (with CPython's defaults:
`keep_blank_values=False`, separator `'&'`), as the ordered list of
name/value pairs: chunks are split on `'&'`, each chunk on its first `'='`,
and chunks without a non-empty value are dropped.  Percent-decoding and
plus-to-space decoding are not modelled; the query values handled here are
plain ASCII words. -/
def parse_qs (query : Str) : List (Str × Str) :=
  (pySplit '&' query).filterMap (fun chunk =>
    let nv := splitAtFirst '=' chunk
    if nv.2 = [] then none else some nv)

/-- Model of `parse_qs(...)` dictionary access `d.get(name, [""])[0]`: the
value of the first pair named `name`, or `""`. -/
def qsGetFirst (ps : List (Str × Str)) (name : Str) : Str :=
  match ps.find? (fun p => p.1 == name) with
  | some p => p.2
  | none => []

/-- Model of `os.path.join(a, b)` on POSIX for a directory `a` without a
trailing slash: `b` itself when `b` is absolute, else `a ++ "/" ++ b`. -/
def os_path_join (a b : Str) : Str :=
  if b.head? = some '/' then b else a ++ '/' :: b

/-- `COMFYUI_LORA_DIR` from the source. -/
def COMFYUI_LORA_DIR : Str := S "ComfyUI/models/loras"

/-- `HF_TEMP_DIR` from the source. -/
def HF_TEMP_DIR : Str := S "TEMP_HF"

/-- The errors the fetcher can signal, one constructor per distinct Python
exception site:
* `unsupportedSource` — `ValueError("URL must be from ...")` in `download`;
* `malformedUrl` — `ValueError("HuggingFace URL does not contain enough parts")`;
* `indexError` — Python `IndexError` from `filename_and_path[-1]` on an empty list;
* `downloadFailed` — `RuntimeError("Download failed.")` (Civitai, non-zero exit);
* `downloadTimeout` — `RuntimeError("Download failed due to timeout")` (Civitai);
* `timeoutExpired` — an uncaught `subprocess.TimeoutExpired` (Replicate);
* `hfClientError` — an error propagated from `hf_hub_download`;
* `tarOpenError` — `tarfile.open` failing on the fetched file;
* `keyError` — `KeyError` from `TarFile.extractfile` on an absent member;
* `archiveEntryMissing` — `ValueError("LoRA file not found in the downloaded tar")`;
* `typeError` — a Python `TypeError` from subscripting a non-dict (predict model). -/
inductive Err
  | unsupportedSource
  | malformedUrl
  | indexError
  | downloadFailed
  | downloadTimeout
  | timeoutExpired
  | hfClientError
  | tarOpenError
  | keyError
  | archiveEntryMissing
  | typeError
deriving DecidableEq, Repr

/-- `DownloadExternalLora.extract_parts_from_huggingface_url`: splits the URL
path on `/`, requires at least 5 chunks (`ValueError` otherwise), and returns
`(repo_id, revision, filename_and_path, filename)` with
`repo_id = path_parts[1] ++ "/" ++ path_parts[2]`,
`revision = path_parts[4]`, `filename_and_path = path_parts[5:]` and
`filename = filename_and_path[-1]` — the latter raises `IndexError` when
`path_parts[5:]` is empty, modelled by the emptiness guard. -/
def extract_parts_from_huggingface_url (url : Str) :
    Except Err (Str × Str × List Str × Str) :=
  let path_parts := pySplit '/' (urlPathQuery url).1
  if path_parts.length < 5 then .error .malformedUrl
  else
    let repo_id := path_parts.getD 1 [] ++ '/' :: path_parts.getD 2 []
    let revision := path_parts.getD 4 []
    let filename_and_path := path_parts.drop 5
    if filename_and_path = [] then .error .indexError
    else .ok (repo_id, revision, filename_and_path, pyNeg1 filename_and_path)

/-- The local filename the HuggingFace path derives
(`f"{repo_id.replace('/', '_')}_{original_filename}"` in
`download_from_huggingface`); `none` when URL parsing fails. -/
def hf_derived_filename (url : Str) : Option Str :=
  match extract_parts_from_huggingface_url url with
  | .error _ => none
  | .ok q => some (pyReplace '/' '_' q.1 ++ '_' :: q.2.2.2)

/-- `DownloadExternalLora.get_replicate_filename`:
`f"replicate_lora_{url.split('/')[-2]}.safetensors"`. -/
def get_replicate_filename (url : Str) : Str :=
  S "replicate_lora_" ++ pyNeg2 (pySplit '/' url) ++ S ".safetensors"

/-- `DownloadExternalLora.get_civitai_filename`: the last chunk of the URL
path is the model id; for each of the query parameters `type`, `format`,
`size`, `fp` (in that order) whose first value is non-empty, the lowercased
value is appended; the parts are joined with `"_"` and suffixed with
`".safetensors"`. -/
def get_civitai_filename (url : Str) : Str :=
  let pq := urlPathQuery url
  let query_params := parse_qs pq.2
  let model_id := pyNeg1 (pySplit '/' pq.1)
  let filename_parts := (S "civitai_" ++ model_id) ::
    ([S "type", S "format", S "size", S "fp"].filterMap (fun p =>
      let v := qsGetFirst query_params p
      if v = [] then none else some (pyLower v)))
  pyJoin (S "_") filename_parts ++ S ".safetensors"

/-- The Civitai filename as the specification words it: `"civitai_"` followed
by the model id, then for each present parameter (fixed order `type`,
`format`, `size`, `fp`) an underscore followed by the lowercased value, then
`".safetensors"`.  Stated from the spec, to be compared with
`get_civitai_filename`. -/
def civitai_filename_spec (url : Str) : Str :=
  let pq := urlPathQuery url
  let query_params := parse_qs pq.2
  let model_id := pyNeg1 (pySplit '/' pq.1)
  let presentValues := [S "type", S "format", S "size", S "fp"].filterMap (fun p =>
    let v := qsGetFirst query_params p
    if v = [] then none else some (pyLower v))
  S "civitai_" ++ model_id ++ (presentValues.map (fun v => '_' :: v)).flatten
    ++ S ".safetensors"

/-- The file-system state: the set of paths that currently exist, as a list. -/
structure FS where
  files : List Str
deriving DecidableEq, Repr

/-- Model of `os.path.exists`. -/
def FS.has (fs : FS) (p : Str) : Bool := fs.files.contains p

/-- A file being written (or moved in) at path `p`. -/
def FS.create (fs : FS) (p : Str) : FS := ⟨p :: fs.files⟩

/-- Model of `os.unlink` / the source side of `shutil.move`. -/
def FS.remove (fs : FS) (p : Str) : FS := ⟨fs.files.filter (fun q => q ≠ p)⟩

/-- The network/subprocess events a download can issue:
* `hfHubDownload repo rev file dir` — a call to `hf_hub_download`;
* `pgetRun url dest` — running the `pget` fast-fetch subprocess. -/
inductive Ev
  | hfHubDownload (repo rev file dir : Str)
  | pgetRun (url dest : Str)
deriving DecidableEq, Repr

/-- Oracle for one `hf_hub_download` call: either the staged local path of the
downloaded file, or a client error (propagated verbatim by the source). -/
inductive HfOutcome
  | ok (file_path : Str)
  | clientError
deriving DecidableEq, Repr

/-- Oracle outcome of one `subprocess.run(["pget", ...], timeout=600)` call:
the process exit code, or the 600-second timeout expiring
(`subprocess.TimeoutExpired`). -/
inductive PgetOutcome
  | exit (code : Int)
  | timeout
deriving DecidableEq, Repr

/-- Oracle behaviour of one `pget` invocation: its outcome, and whether a
(possibly partial) file exists at the target path afterwards.  The external
tool's write behaviour on failure is not determined by this repository, so it
is a parameter. -/
structure PgetBehavior where
  outcome : PgetOutcome
  wrote : Bool
deriving DecidableEq, Repr

/-- A member of the downloaded tar archive: its entry name and whether it is
a regular file or a link (`TarFile.extractfile` returns a stream for those
and `None` for any other existing member). -/
structure TarMember where
  name : Str
  isRegularOrLink : Bool
deriving DecidableEq, Repr

/-- Oracle for the fetched tar file: either `tarfile.open` fails (missing or
corrupt file), or it yields the archive's member list. -/
inductive TarOutcome
  | openFail
  | archive (members : List TarMember)
deriving DecidableEq, Repr

/-- Model of `TarFile.extractfile(name)` per the CPython documentation:
`KeyError` (here `.error ()`) when no member has the given name; `None`
(here `.ok none`) when the member exists but is not a regular file or a
link; otherwise the member.  When a name occurs more than once, the last
occurrence wins. -/
def tarExtractfile (members : List TarMember) (name : Str) :
    Except Unit (Option TarMember) :=
  match members.reverse.find? (fun m => m.name == name) with
  | none => .error ()
  | some m => .ok (if m.isRegularOrLink then some m else none)

/-- The result of one fetch: the returned filename or the raised error, the
file system afterwards, and the network/subprocess events issued. -/
abbrev DlResult := Except Err Str × FS × List Ev

/-- `DownloadExternalLora.download_from_huggingface`: parse the URL, derive
the filename, return it at once on a cache hit, otherwise call
`hf_hub_download` into `HF_TEMP_DIR` and move the staged file to the
destination. -/
def download_from_huggingface (fs : FS) (hf : HfOutcome) (url : Str) : DlResult :=
  match extract_parts_from_huggingface_url url with
  | .error e => (.error e, fs, [])
  | .ok (repo_id, revision, filename_and_path, original_filename) =>
    let filename := pyReplace '/' '_' repo_id ++ '_' :: original_filename
    let dest_path := os_path_join COMFYUI_LORA_DIR filename
    if fs.has dest_path then (.ok filename, fs, [])
    else
      let ev := [Ev.hfHubDownload repo_id revision
        (pyJoin (S "/") filename_and_path) HF_TEMP_DIR]
      match hf with
      | .clientError => (.error .hfClientError, fs, ev)
      | .ok file_path => (.ok filename, (fs.create dest_path).remove file_path, ev)

/-- `DownloadExternalLora.download_from_civitai`: derive the filename, return
it at once on a cache hit, otherwise run `pget` straight to the destination
path; a non-zero exit raises `RuntimeError("Download failed.")` and a timeout
raises `RuntimeError("Download failed due to timeout")`.  Nothing removes
whatever `pget` wrote on failure. -/
def download_from_civitai (fs : FS) (pg : PgetBehavior) (url : Str) : DlResult :=
  let filename := get_civitai_filename url
  let dest_path := os_path_join COMFYUI_LORA_DIR filename
  if fs.has dest_path then (.ok filename, fs, [])
  else
    let ev := [Ev.pgetRun url dest_path]
    let fs1 := if pg.wrote then fs.create dest_path else fs
    match pg.outcome with
    | .exit code => if code ≠ 0 then (.error .downloadFailed, fs1, ev)
                    else (.ok filename, fs1, ev)
    | .timeout => (.error .downloadTimeout, fs1, ev)

/-- The archive stage of `download_from_replicate` (everything from
`tarfile.open` on): extract the fixed entry
`output/flux_train_replicate/lora.safetensors`; an absent entry is a
`KeyError`, an existing non-regular entry is the
`ValueError("LoRA file not found in the downloaded tar")`; on success the
bytes are written to the destination and the scratch tar is unlinked. -/
def replicate_tar_stage (fs : FS) (tar : TarOutcome)
    (dest_path temp_tar_path filename : Str) (ev : List Ev) : DlResult :=
  match tar with
  | .openFail => (.error .tarOpenError, fs, ev)
  | .archive members =>
    match tarExtractfile members (S "output/flux_train_replicate/lora.safetensors") with
    | .error _ => (.error .keyError, fs, ev)
    | .ok none => (.error .archiveEntryMissing, fs, ev)
    | .ok (some _) => (.ok filename, (fs.create dest_path).remove temp_tar_path, ev)

/-- `DownloadExternalLora.download_from_replicate`: derive the filename,
return it at once on a cache hit, otherwise run `pget` to a scratch path in
`HF_TEMP_DIR`.  The source does not inspect the subprocess's exit code — any
exit falls through to the archive stage — and a `subprocess.TimeoutExpired`
propagates uncaught. -/
def download_from_replicate (fs : FS) (pg : PgetBehavior) (tar : TarOutcome)
    (url : Str) : DlResult :=
  let filename := get_replicate_filename url
  let dest_path := os_path_join COMFYUI_LORA_DIR filename
  let temp_tar_path := os_path_join HF_TEMP_DIR filename
  if fs.has dest_path then (.ok filename, fs, [])
  else
    let ev := [Ev.pgetRun url temp_tar_path]
    let fs1 := if pg.wrote then fs.create temp_tar_path else fs
    match pg.outcome with
    | .exit _ => replicate_tar_stage fs1 tar dest_path temp_tar_path filename ev
    | .timeout => (.error .timeoutExpired, fs1, ev)

/-- The URL prefix of the HuggingFace dispatch branch. -/
def hfHost : Str := S "https://huggingface.co"

/-- The URL prefix of the Civitai dispatch branch. -/
def civitaiHost : Str := S "https://civitai.com"

/-- The URL prefix of the Replicate dispatch branch. -/
def replicateHost : Str := S "https://replicate.delivery"

/-- `DownloadExternalLora.download`: prefix dispatch over the three known
hosts, in source order; any other URL raises the
`ValueError("URL must be from 'huggingface.co', 'civitai.com', or
'replicate.delivery'")`. -/
def download (fs : FS) (hf : HfOutcome) (pg : PgetBehavior) (tar : TarOutcome)
    (url : Str) : DlResult :=
  if pyStartswith url hfHost then download_from_huggingface fs hf url
  else if pyStartswith url civitaiHost then download_from_civitai fs pg url
  else if pyStartswith url replicateHost then download_from_replicate fs pg tar url
  else (.error .unsupportedSource, fs, [])

/-- The derived local filename as a pure function of the URL alone: the name
each provider branch computes before any I/O, `none` for an unsupported
source or an unparseable HuggingFace URL. -/
def filenameOf (url : Str) : Option Str :=
  if pyStartswith url hfHost then hf_derived_filename url
  else if pyStartswith url civitaiHost then some (get_civitai_filename url)
  else if pyStartswith url replicateHost then some (get_replicate_filename url)
  else none

/-- A JSON value of the workflow document, parameterised by the type `F`
used for the float-valued request inputs (which `update_workflow` only
copies, never computes with). -/
inductive JVal (F : Type)
  | str : Str → JVal F
  | num : F → JVal F
  | int : Int → JVal F
  | bool : Bool → JVal F
  | null : JVal F
  | obj : List (Str × JVal F) → JVal F

/-- A JSON object / Python dict, as an ordered association list with unique
keys (the shape `json.loads` produces). -/
abbrev JDict (F : Type) := List (Str × JVal F)

/-- Python dict lookup `d[k]` (the value, or `none` standing for `KeyError`). -/
def dictGet {F : Type} (d : JDict F) (k : Str) : Option (JVal F) :=
  match d with
  | [] => none
  | p :: rest => if p.1 == k then some p.2 else dictGet rest k

/-- Python dict assignment `d[k] = v`: replaces the first binding of `k`
(the only one, keys being unique), or appends a new one. -/
def dictSet {F : Type} (d : JDict F) (k : Str) (v : JVal F) : JDict F :=
  match d with
  | [] => [(k, v)]
  | p :: rest => if p.1 == k then (k, v) :: rest else p :: dictSet rest k v

/-- A sequence of dict assignments, in order. -/
def applySets {F : Type} (d : JDict F) (sets : List (Str × JVal F)) : JDict F :=
  match sets with
  | [] => d
  | s :: rest => applySets (dictSet d s.1 s.2) rest

/-- The source pattern `node = workflow[nodeId]["inputs"]; node[f] = v; ...`:
looks up the node (a `KeyError` when absent, a `TypeError` when the node or
its `"inputs"` is not a dict) and performs the field assignments on its
`"inputs"` dict. -/
def updateInputs {F : Type} (wf : JDict F) (nodeId : Str)
    (sets : List (Str × JVal F)) : Except Err (JDict F) :=
  match dictGet wf nodeId with
  | none => .error .keyError
  | some (JVal.obj node) =>
    match dictGet node (S "inputs") with
    | none => .error .keyError
    | some (JVal.obj inputs) =>
      .ok (dictSet wf nodeId
        (.obj (dictSet node (S "inputs") (.obj (applySets inputs sets)))))
    | some _ => .error .typeError
  | some _ => .error .typeError

/-- Reads field `field` of node `nodeId`'s `"inputs"` dict. -/
def getInput {F : Type} (wf : JDict F) (nodeId field : Str) : Option (JVal F) :=
  match dictGet wf nodeId with
  | some (JVal.obj node) =>
    match dictGet node (S "inputs") with
    | some (JVal.obj inputs) => dictGet inputs field
    | _ => none
  | _ => none

/-- `Predictor.preprocessor_map`: the dict-literal lookup from the
human-facing preprocessor label to the node's preprocessor identifier; an
unknown label is a Python `KeyError`. -/
def preprocessor_map (label : Str) : Except Err Str :=
  if label = S "Canny" then .ok (S "CannyEdgePreprocessor")
  else if label = S "Midas" then .ok (S "MiDaS-DepthMapPreprocessor")
  else if label = S "Zoe" then .ok (S "Zoe-DepthMapPreprocessor")
  else if label = S "DepthAnything" then .ok (S "DepthAnythingPreprocessor")
  else if label = S "Zoe-DepthAnything" then .ok (S "Zoe_DepthAnythingPreprocessor")
  else if label = S "HED" then .ok (S "HEDPreprocessor")
  else if label = S "TEED" then .ok (S "TEEDPreprocessor")
  else if label = S "PiDiNet" then .ok (S "PiDiNetPreprocessor")
  else .error .keyError

/-- `Predictor.control_weights_map`: control type to controlnet weights
file; an unknown type is a Python `KeyError`. -/
def control_weights_map (control_type : Str) : Except Err Str :=
  if control_type = S "canny" then .ok (S "flux-canny-controlnet-v3.safetensors")
  else if control_type = S "soft_edge" then .ok (S "flux-hed-controlnet-v3.safetensors")
  else if control_type = S "depth" then .ok (S "flux-depth-controlnet-v3.safetensors")
  else .error .keyError

/-- The keyword arguments `predict` passes to `update_workflow`. -/
structure Kwargs (F : Type) where
  prompt : Str
  negative_prompt : Str
  control_type : Str
  control_image_filename : Option Str
  control_strength : F
  guidance_scale : F
  steps : Int
  soft_edge_preprocessor : Str
  depth_preprocessor : Str
  image_to_image_strength : F
  return_preprocessed_image : Bool
  seed : Int

/-- `Predictor.update_workflow`, statement by statement: each block looks up
a node's `"inputs"` dict and assigns its fields, in source order; the
controlnet path and preprocessor identifiers come from the two lookup
tables, and the preprocessor label is chosen from the control type. -/
def update_workflow {F : Type} (wf : JDict F) (k : Kwargs F) :
    Except Err (JDict F) :=
  match updateInputs wf (S "53")
      [(S "clip_l", .str k.prompt), (S "t5xxl", .str k.prompt),
       (S "guidance", .num k.guidance_scale)] with
  | .error e => .error e
  | .ok wf1 =>
    match updateInputs wf1 (S "57")
        [(S "clip_l", .str (S "nsfw, " ++ k.negative_prompt)),
         (S "t5xxl", .str (S "nsfw, " ++ k.negative_prompt)),
         (S "guidance", .num k.guidance_scale)] with
    | .error e => .error e
    | .ok wf2 =>
      match updateInputs wf2 (S "16")
          [(S "image", match k.control_image_filename with
                       | some f => .str f
                       | none => .null)] with
      | .error e => .error e
      | .ok wf3 =>
        match updateInputs wf3 (S "14")
            [(S "strength", .num k.control_strength)] with
        | .error e => .error e
        | .ok wf4 =>
          match updateInputs wf4 (S "3")
              [(S "steps", .int k.steps), (S "noise_seed", .int k.seed),
               (S "seed", .int k.seed), (S "true_gs", .num k.guidance_scale),
               (S "image_to_image_strength", .num k.image_to_image_strength)] with
          | .error e => .error e
          | .ok wf5 =>
            match control_weights_map k.control_type with
            | .error e => .error e
            | .ok cw =>
              match updateInputs wf5 (S "13") [(S "controlnet_path", .str cw)] with
              | .error e => .error e
              | .ok wf6 =>
                let preprop :=
                  if k.control_type = S "depth" then k.depth_preprocessor
                  else if k.control_type = S "soft_edge" then k.soft_edge_preprocessor
                  else S "Canny"
                match preprocessor_map preprop with
                | .error e => .error e
                | .ok pm =>
                  match updateInputs wf6 (S "51") [(S "preprocessor", .str pm)] with
                  | .error e => .error e
                  | .ok wf7 => .ok wf7

/-- A minimal workflow document holding the seven nodes `update_workflow`
touches, used to instantiate theorems at a concrete input. -/
def wfFixture : JDict Int :=
  [(S "53", .obj [(S "inputs", .obj [])]),
   (S "57", .obj [(S "inputs", .obj [])]),
   (S "16", .obj [(S "inputs", .obj [])]),
   (S "14", .obj [(S "inputs", .obj [])]),
   (S "3", .obj [(S "inputs", .obj [])]),
   (S "13", .obj [(S "inputs", .obj [])]),
   (S "51", .obj [(S "inputs", .obj [])])]

/-- Concrete request inputs for the fixture (floats instantiated at `Int`,
which `update_workflow` only copies). -/
def kwFixture : Kwargs Int :=
  { prompt := S "a photo"
    negative_prompt := S "blurry"
    control_type := S "depth"
    control_image_filename := some (S "control_image.png")
    control_strength := 1
    guidance_scale := 3
    steps := 28
    soft_edge_preprocessor := S "HED"
    depth_preprocessor := S "Midas"
    image_to_image_strength := 0
    return_preprocessed_image := false
    seed := 42 }

/-- The workflow produced by `update_workflow` on the fixture. -/
def wfFixtureResult : JDict Int :=
  (update_workflow wfFixture kwFixture).toOption.getD []

/-- `pySplit` never returns the empty list (Python `split` always yields at
least one chunk). -/
theorem pySplit_ne_nil (c : Char) (s : Str) : pySplit c s ≠ [] := by
  induction s with
  | nil => simp [pySplit]
  | cons a rest ih =>
    simp only [pySplit]
    cases h : pySplit c rest with
    | nil => simp
    | cons hd tl => by_cases hac : a = c <;> simp [hac]

/-- Splitting a string that starts with the separator. -/
theorem pySplit_cons_sep (c : Char) (s : Str) :
    pySplit c (c :: s) = [] :: pySplit c s := by
  simp only [pySplit]
  cases h : pySplit c s with
  | nil => exact absurd h (pySplit_ne_nil c s)
  | cons hd tl => simp

/-- Splitting across a separator-free block followed by a separator. -/
theorem pySplit_append_sep (c : Char) (xs ys : Str) (h : c ∉ xs) :
    pySplit c (xs ++ c :: ys) = xs :: pySplit c ys := by
  induction xs with
  | nil => simpa using pySplit_cons_sep c ys
  | cons a rest ih =>
    have ha : a ≠ c := fun hac => h (hac ▸ List.mem_cons_self a rest)
    have h' : c ∉ rest := fun hm => h (List.mem_cons_of_mem a hm)
    simp only [List.cons_append, pySplit, List.append_eq]
    rw [ih h']
    simp [ha]

/-- Splitting a separator-free string. -/
theorem pySplit_no_sep (c : Char) (xs : Str) (h : c ∉ xs) :
    pySplit c xs = [xs] := by
  induction xs with
  | nil => rfl
  | cons a rest ih =>
    have ha : a ≠ c := fun hac => h (hac ▸ List.mem_cons_self a rest)
    have h' : c ∉ rest := fun hm => h (List.mem_cons_of_mem a hm)
    simp only [pySplit, ih h']
    simp [ha]

/-- `splitAtFirst` on a string not containing the separator. -/
theorem splitAtFirst_not_mem (c : Char) (s : Str) (h : c ∉ s) :
    splitAtFirst c s = (s, []) := by
  induction s with
  | nil => rfl
  | cons a rest ih =>
    have ha : a ≠ c := fun hac => h (hac ▸ List.mem_cons_self a rest)
    have h' : c ∉ rest := fun hm => h (List.mem_cons_of_mem a hm)
    simp [splitAtFirst, ha, ih h']

/-- A `join` with a non-empty argument list, written as the head followed by
separator-prefixed tails. -/
theorem pyJoin_cons (sep a : Str) (l : List Str) :
    pyJoin sep (a :: l) = a ++ (l.map (fun x => sep ++ x)).flatten := by
  induction l generalizing a with
  | nil => simp [pyJoin, List.intercalate]
  | cons b t ih =>
    have hstep : pyJoin sep (a :: b :: t) = a ++ sep ++ pyJoin sep (b :: t) := by
      simp [pyJoin, List.intercalate, List.intersperse]
    rw [hstep, ih b]
    simp

/-- A successful `startswith` pins down the matching-length front of the
string. -/
theorem pyStartswith_take (u a : Str) (h : pyStartswith u a = true) :
    u.take a.length = a := by
  induction a generalizing u with
  | nil => simp
  | cons x xs ih =>
    cases u with
    | nil => simp [pyStartswith, List.isPrefixOf] at h
    | cons y ys =>
      simp only [pyStartswith, List.isPrefixOf, Bool.and_eq_true, beq_iff_eq] at h
      obtain ⟨rfl, h2⟩ := h
      simp [List.take_succ_cons, ih ys h2]

/-- Two prefixes of the same string agree on their common front: used to show
that the three host prefixes are mutually exclusive. -/
theorem takes_of_two_prefixes (u a b : Str) (ha : pyStartswith u a = true)
    (hb : pyStartswith u b = true) (hlen : b.length ≤ a.length) :
    a.take b.length = b := by
  rw [← pyStartswith_take u a ha, List.take_take, Nat.min_eq_left hlen,
    pyStartswith_take u b hb]

/-- Looking up the key just assigned. -/
theorem dictGet_dictSet_self {F : Type} (d : JDict F) (k : Str) (v : JVal F) :
    dictGet (dictSet d k v) k = some v := by
  induction d with
  | nil => simp [dictGet, dictSet]
  | cons p rest ih =>
    by_cases h : p.1 = k
    · simp [dictGet, dictSet, h]
    · simp [dictGet, dictSet, h, ih]

/-- Looking up a different key than the one just assigned. -/
theorem dictGet_dictSet_ne {F : Type} (d : JDict F) (k k' : Str) (v : JVal F)
    (h : k' ≠ k) : dictGet (dictSet d k v) k' = dictGet d k' := by
  have h' : ¬k = k' := fun e => h e.symm
  induction d with
  | nil => simp [dictGet, dictSet, h, h']
  | cons p rest ih =>
    by_cases hp : p.1 = k
    · simp [dictGet, dictSet, hp, h, h', ih]
    · by_cases hp' : p.1 = k' <;> simp [dictGet, dictSet, hp, hp', h, h', ih]

/-- Inversion for a successful `updateInputs`: the node and its `"inputs"`
dict exist and the result is the corresponding nested assignment. -/
theorem updateInputs_ok {F : Type} {wf : JDict F} {n : Str}
    {sets : List (Str × JVal F)} {wf' : JDict F}
    (h : updateInputs wf n sets = .ok wf') :
    ∃ node inputs, dictGet wf n = some (.obj node) ∧
      dictGet node (S "inputs") = some (.obj inputs) ∧
      wf' = dictSet wf n
        (.obj (dictSet node (S "inputs") (.obj (applySets inputs sets)))) := by
  unfold updateInputs at h
  split at h
  all_goals try split at h
  all_goals cases h
  exact ⟨_, _, by assumption, by assumption, rfl⟩

/-- Reading a field of the node that a nested assignment just rewrote. -/
theorem getInput_dictSet_node {F : Type} (wf : JDict F) (n : Str)
    (node A : JDict F) (f : Str) :
    getInput (dictSet wf n (.obj (dictSet node (S "inputs") (.obj A)))) n f =
      dictGet A f := by
  simp only [getInput, dictGet_dictSet_self]

/-- Reading a node other than the one just rewritten. -/
theorem getInput_dictSet_other {F : Type} (wf : JDict F) (n m : Str)
    (v : JVal F) (f : Str) (h : n ≠ m) :
    getInput (dictSet wf m v) n f = getInput wf n f := by
  unfold getInput
  rw [dictGet_dictSet_ne _ _ _ _ h]

/-- `updateInputs` on one node leaves every other node's inputs unchanged. -/
theorem getInput_update_other {F : Type} {wf wf' : JDict F} {m : Str}
    {sets : List (Str × JVal F)} (n f : Str)
    (h : updateInputs wf m sets = .ok wf') (hnm : n ≠ m) :
    getInput wf' n f = getInput wf n f := by
  obtain ⟨node, inputs, _, _, rfl⟩ := updateInputs_ok h
  exact getInput_dictSet_other wf n m _ f hnm

/-- The filename a successful Civitai fetch returns is the derived one. -/
theorem civitai_ok_filename {fs : FS} {pg : PgetBehavior} {url r : Str} {fs' : FS}
    {ev : List Ev} (h : download_from_civitai fs pg url = (.ok r, fs', ev)) :
    r = get_civitai_filename url := by
  obtain ⟨po, pw⟩ := pg
  unfold download_from_civitai at h
  by_cases hh : fs.has (os_path_join COMFYUI_LORA_DIR (get_civitai_filename url)) = true
  · rw [if_pos hh] at h
    simp only [Prod.mk.injEq, Except.ok.injEq] at h
    exact h.1.symm
  · rw [if_neg hh] at h
    cases po with
    | exit code =>
      dsimp only at h
      by_cases hc : code ≠ 0
      · rw [if_pos hc] at h
        simp at h
      · rw [if_neg hc] at h
        simp only [Prod.mk.injEq, Except.ok.injEq] at h
        exact h.1.symm
    | timeout => simp at h

/-- The filename a successful archive stage returns is the one passed in. -/
theorem replicate_tar_ok {fs : FS} {tar : TarOutcome} {d t fn : Str} {ev : List Ev}
    {r : Str} {fs' : FS} {ev' : List Ev}
    (h : replicate_tar_stage fs tar d t fn ev = (.ok r, fs', ev')) : r = fn := by
  unfold replicate_tar_stage at h
  cases tar with
  | openFail => simp at h
  | archive members =>
    dsimp only at h
    cases he : tarExtractfile members (S "output/flux_train_replicate/lora.safetensors") with
    | error u => rw [he] at h; simp at h
    | ok o =>
      rw [he] at h
      cases o with
      | none => simp at h
      | some m =>
        simp only [Prod.mk.injEq, Except.ok.injEq] at h
        exact h.1.symm

/-- The filename a successful Replicate fetch returns is the derived one. -/
theorem replicate_ok_filename {fs : FS} {pg : PgetBehavior} {tar : TarOutcome}
    {url r : Str} {fs' : FS} {ev : List Ev}
    (h : download_from_replicate fs pg tar url = (.ok r, fs', ev)) :
    r = get_replicate_filename url := by
  obtain ⟨po, pw⟩ := pg
  unfold download_from_replicate at h
  by_cases hh : fs.has (os_path_join COMFYUI_LORA_DIR (get_replicate_filename url)) = true
  · rw [if_pos hh] at h
    simp only [Prod.mk.injEq, Except.ok.injEq] at h
    exact h.1.symm
  · rw [if_neg hh] at h
    cases po with
    | exit code =>
      dsimp only at h
      exact replicate_tar_ok h
    | timeout => simp at h

/-- The filename a successful HuggingFace fetch returns is the derived one. -/
theorem hf_ok_filename {fs : FS} {hf : HfOutcome} {url r : Str} {fs' : FS}
    {ev : List Ev} (h : download_from_huggingface fs hf url = (.ok r, fs', ev)) :
    hf_derived_filename url = some r := by
  unfold download_from_huggingface at h
  unfold hf_derived_filename
  cases hext : extract_parts_from_huggingface_url url with
  | error e => rw [hext] at h; simp at h
  | ok q =>
    rw [hext] at h
    obtain ⟨repo, rev, segs, fn⟩ := q
    dsimp only at h
    by_cases hh : fs.has
        (os_path_join COMFYUI_LORA_DIR (pyReplace '/' '_' repo ++ '_' :: fn)) = true
    · rw [if_pos hh] at h
      simp only [Prod.mk.injEq, Except.ok.injEq] at h
      simp [h.1]
    · rw [if_neg hh] at h
      cases hf with
      | clientError => simp at h
      | ok fp =>
        dsimp only at h
        simp only [Prod.mk.injEq, Except.ok.injEq] at h
        simp [h.1]

/-- Cache-hit short circuit of the Civitai path. -/
theorem civitai_cache (fs : FS) (pg : PgetBehavior) (url : Str)
    (hh : FS.has fs (os_path_join COMFYUI_LORA_DIR (get_civitai_filename url)) = true) :
    download_from_civitai fs pg url = (.ok (get_civitai_filename url), fs, []) := by
  unfold download_from_civitai
  rw [if_pos hh]

/-- Cache-hit short circuit of the Replicate path. -/
theorem replicate_cache (fs : FS) (pg : PgetBehavior) (tar : TarOutcome) (url : Str)
    (hh : FS.has fs (os_path_join COMFYUI_LORA_DIR (get_replicate_filename url)) = true) :
    download_from_replicate fs pg tar url = (.ok (get_replicate_filename url), fs, []) := by
  unfold download_from_replicate
  rw [if_pos hh]

/-- Cache-hit short circuit of the HuggingFace path. -/
theorem hf_cache (fs : FS) (hf : HfOutcome) (url f : Str)
    (hder : hf_derived_filename url = some f)
    (hh : FS.has fs (os_path_join COMFYUI_LORA_DIR f) = true) :
    download_from_huggingface fs hf url = (.ok f, fs, []) := by
  unfold hf_derived_filename at hder
  unfold download_from_huggingface
  cases hext : extract_parts_from_huggingface_url url with
  | error e => rw [hext] at hder; simp at hder
  | ok q =>
    rw [hext] at hder
    obtain ⟨repo, rev, segs, fn⟩ := q
    simp only [Option.some.injEq] at hder
    dsimp only
    rw [hder, if_pos hh]

/-- The Replicate destination path and its scratch path never coincide: the
directories differ in length and the filename is relative. -/
theorem replicate_dest_ne_temp (url : Str) :
    os_path_join COMFYUI_LORA_DIR (get_replicate_filename url) ≠
      os_path_join HF_TEMP_DIR (get_replicate_filename url) := by
  have hg : (get_replicate_filename url).head? = some 'r' := rfl
  unfold os_path_join
  rw [hg, if_neg (by decide), if_neg (by decide)]
  intro he
  have hlen := congrArg List.length he
  simp only [List.length_append, List.length_cons] at hlen
  have h1 : COMFYUI_LORA_DIR.length = 20 := rfl
  have h2 : HF_TEMP_DIR.length = 7 := rfl
  rw [h1, h2] at hlen
  omega

/-- Creating one path does not make a different path exist. -/
theorem FS.has_create_ne (fs : FS) (p q : Str) (h : q ≠ p)
    (hq : fs.has q = false) : (fs.create p).has q = false := by
  unfold FS.has at hq ⊢
  unfold FS.create
  rw [List.contains_cons, hq]
  simp [h]

/-- C1: for every URL, `download` dispatches by prefix match in the fixed
order huggingface.co, civitai.com, replicate.delivery, reaching exactly one
provider-specific path (the three prefixes are mutually exclusive), and for
every URL matching none of them it raises the unsupported-source error with
no network access, no subprocess invocation and no file-system change. -/
theorem download_dispatch_by_host :
    ∀ (fs : FS) (hf : HfOutcome) (pg : PgetBehavior) (tar : TarOutcome) (url : Str),
      (pyStartswith url hfHost = true →
        download fs hf pg tar url = download_from_huggingface fs hf url) ∧
      (pyStartswith url hfHost = false → pyStartswith url civitaiHost = true →
        download fs hf pg tar url = download_from_civitai fs pg url) ∧
      (pyStartswith url hfHost = false → pyStartswith url civitaiHost = false →
        pyStartswith url replicateHost = true →
        download fs hf pg tar url = download_from_replicate fs pg tar url) ∧
      (pyStartswith url hfHost = false → pyStartswith url civitaiHost = false →
        pyStartswith url replicateHost = false →
        download fs hf pg tar url = (.error .unsupportedSource, fs, [])) ∧
      ¬(pyStartswith url hfHost = true ∧ pyStartswith url civitaiHost = true) ∧
      ¬(pyStartswith url hfHost = true ∧ pyStartswith url replicateHost = true) ∧
      ¬(pyStartswith url civitaiHost = true ∧ pyStartswith url replicateHost = true) := by
  intro fs hf pg tar url
  refine ⟨fun h1 => ?_, fun h1 h2 => ?_, fun h1 h2 h3 => ?_, fun h1 h2 h3 => ?_,
    ?_, ?_, ?_⟩
  · simp [download, h1]
  · simp [download, h1, h2]
  · simp [download, h1, h2, h3]
  · simp [download, h1, h2, h3]
  · rintro ⟨h1, h2⟩
    have := takes_of_two_prefixes url hfHost civitaiHost h1 h2 (by decide)
    exact absurd this (by decide)
  · rintro ⟨h1, h2⟩
    have := takes_of_two_prefixes url replicateHost hfHost h2 h1 (by decide)
    exact absurd this (by decide)
  · rintro ⟨h1, h2⟩
    have := takes_of_two_prefixes url replicateHost civitaiHost h2 h1 (by decide)
    exact absurd this (by decide)

/-- Witness for C1: a URL from an unknown host raises the unsupported-source
error with no events issued and the file system unchanged. -/
theorem download_dispatch_by_host_witness :
    download ⟨[]⟩ (.ok (S "staged")) ⟨.exit 0, true⟩ .openFail
        (S "https://example.com/lora.safetensors") =
      (.error .unsupportedSource, ⟨[]⟩, []) :=
  (download_dispatch_by_host ⟨[]⟩ (.ok (S "staged")) ⟨.exit 0, true⟩ .openFail
    (S "https://example.com/lora.safetensors")).2.2.2.1
    (by decide) (by decide) (by decide)

/-- C2: the derived local filename is a pure function of the URL — every
successful `download`, whatever the file system and the behaviour of the
external collaborators, returns `filenameOf url` — and whenever the derived
filename already exists at the destination directory, `download` returns it
immediately with no network access, no subprocess invocation and no
file-system change, on all three provider paths. -/
theorem derived_filename_pure_and_cache_hit (url : Str) :
    (∀ (fs : FS) (hf : HfOutcome) (pg : PgetBehavior) (tar : TarOutcome)
        (r : Str) (fs' : FS) (ev : List Ev),
      download fs hf pg tar url = (.ok r, fs', ev) → filenameOf url = some r) ∧
    (∀ (fs : FS) (hf : HfOutcome) (pg : PgetBehavior) (tar : TarOutcome) (f : Str),
      filenameOf url = some f →
      FS.has fs (os_path_join COMFYUI_LORA_DIR f) = true →
      download fs hf pg tar url = (.ok f, fs, [])) := by
  constructor
  · intro fs hf pg tar r fs' ev h
    unfold download at h
    unfold filenameOf
    by_cases p1 : pyStartswith url hfHost = true
    · rw [if_pos p1] at h
      rw [if_pos p1]
      exact hf_ok_filename h
    · rw [if_neg p1] at h
      rw [if_neg p1]
      by_cases p2 : pyStartswith url civitaiHost = true
      · rw [if_pos p2] at h
        rw [if_pos p2]
        rw [civitai_ok_filename h]
      · rw [if_neg p2] at h
        rw [if_neg p2]
        by_cases p3 : pyStartswith url replicateHost = true
        · rw [if_pos p3] at h
          rw [if_pos p3]
          rw [replicate_ok_filename h]
        · rw [if_neg p3] at h
          rw [if_neg p3]
          simp at h
  · intro fs hf pg tar f hder hh
    unfold filenameOf at hder
    unfold download
    by_cases p1 : pyStartswith url hfHost = true
    · rw [if_pos p1] at hder
      rw [if_pos p1]
      exact hf_cache fs hf url f hder hh
    · rw [if_neg p1] at hder
      rw [if_neg p1]
      by_cases p2 : pyStartswith url civitaiHost = true
      · rw [if_pos p2] at hder
        rw [if_pos p2]
        simp only [Option.some.injEq] at hder
        rw [← hder]
        exact civitai_cache fs pg url (hder ▸ hh)
      · rw [if_neg p2] at hder
        rw [if_neg p2]
        by_cases p3 : pyStartswith url replicateHost = true
        · rw [if_pos p3] at hder
          rw [if_pos p3]
          simp only [Option.some.injEq] at hder
          rw [← hder]
          exact replicate_cache fs pg tar url (hder ▸ hh)
        · rw [if_neg p3] at hder
          simp at hder

/-- Witness for C2: with the derived Civitai filename already present, the
fetch is a pure cache hit — the filename is returned, no event is issued and
the file system is unchanged. -/
theorem derived_filename_pure_and_cache_hit_witness :
    download ⟨[S "ComfyUI/models/loras/civitai_7.safetensors"]⟩ (.ok (S "staged"))
        ⟨.exit 0, true⟩ .openFail (S "https://civitai.com/api/download/models/7") =
      (.ok (S "civitai_7.safetensors"),
       ⟨[S "ComfyUI/models/loras/civitai_7.safetensors"]⟩, []) :=
  (derived_filename_pure_and_cache_hit (S "https://civitai.com/api/download/models/7")).2
    ⟨[S "ComfyUI/models/loras/civitai_7.safetensors"]⟩ (.ok (S "staged"))
    ⟨.exit 0, true⟩ .openFail (S "civitai_7.safetensors") (by decide) (by decide)

/-- C3 (amended): for every HuggingFace URL whose path splits into at least
6 segments — at least one segment after the revision; with exactly 5
segments the source raises `IndexError` instead, see the counterexample —
parsing takes segments 1–2 as `repo_id`, segment 4 as the revision and
segments 5+ as the remote path, and the derived filename is the repo id with
`/` replaced by `_`, an underscore, and the original filename; in particular
the spec's example URL parses to `org/model`, `main`,
`sub/weights.safetensors` and derives `org_model_weights.safetensors`. -/
theorem hf_url_parsing :
    (∀ url : Str,
      6 ≤ (pySplit '/' (urlPathQuery url).1).length →
      extract_parts_from_huggingface_url url =
        .ok ((pySplit '/' (urlPathQuery url).1).getD 1 [] ++ '/' ::
               (pySplit '/' (urlPathQuery url).1).getD 2 [],
             (pySplit '/' (urlPathQuery url).1).getD 4 [],
             (pySplit '/' (urlPathQuery url).1).drop 5,
             pyNeg1 ((pySplit '/' (urlPathQuery url).1).drop 5)) ∧
      hf_derived_filename url =
        some (pyReplace '/' '_'
            ((pySplit '/' (urlPathQuery url).1).getD 1 [] ++ '/' ::
              (pySplit '/' (urlPathQuery url).1).getD 2 []) ++
          '_' :: pyNeg1 ((pySplit '/' (urlPathQuery url).1).drop 5))) ∧
    (extract_parts_from_huggingface_url
        (S "https://huggingface.co/org/model/resolve/main/sub/weights.safetensors") =
      .ok (S "org/model", S "main", [S "sub", S "weights.safetensors"],
           S "weights.safetensors") ∧
     hf_derived_filename
        (S "https://huggingface.co/org/model/resolve/main/sub/weights.safetensors") =
      some (S "org_model_weights.safetensors")) := by
  refine ⟨?_, rfl, rfl⟩
  intro url h
  have h5 : ¬(pySplit '/' (urlPathQuery url).1).length < 5 := by omega
  have hdrop : ¬(pySplit '/' (urlPathQuery url).1).drop 5 = [] := by
    intro he
    have := List.drop_eq_nil_iff.mp he
    omega
  have hext : extract_parts_from_huggingface_url url =
      .ok ((pySplit '/' (urlPathQuery url).1).getD 1 [] ++ '/' ::
             (pySplit '/' (urlPathQuery url).1).getD 2 [],
           (pySplit '/' (urlPathQuery url).1).getD 4 [],
           (pySplit '/' (urlPathQuery url).1).drop 5,
           pyNeg1 ((pySplit '/' (urlPathQuery url).1).drop 5)) := by
    unfold extract_parts_from_huggingface_url
    rw [if_neg h5, if_neg hdrop]
  refine ⟨hext, ?_⟩
  unfold hf_derived_filename
  rw [hext]

/-- Counterexample for C3 as stated: the URL
`https://huggingface.co/org/model/resolve/main` has exactly 5 path segments,
so the claim asserts it parses, yet the source raises `IndexError` at
`filename_and_path[-1]` (the remote path `path_parts[5:]` is empty). -/
theorem hf_url_parsing_cex :
    (pySplit '/'
        (urlPathQuery (S "https://huggingface.co/org/model/resolve/main")).1).length = 5 ∧
    extract_parts_from_huggingface_url
        (S "https://huggingface.co/org/model/resolve/main") =
      .error .indexError := ⟨rfl, rfl⟩

/-- Witness for C3: the amended theorem applied to the spec's example URL. -/
theorem hf_url_parsing_witness :
    extract_parts_from_huggingface_url
        (S "https://huggingface.co/org/model/resolve/main/sub/weights.safetensors") =
      .ok (S "org/model", S "main", [S "sub", S "weights.safetensors"],
           S "weights.safetensors") ∧
    hf_derived_filename
        (S "https://huggingface.co/org/model/resolve/main/sub/weights.safetensors") =
      some (S "org_model_weights.safetensors") :=
  hf_url_parsing.1
    (S "https://huggingface.co/org/model/resolve/main/sub/weights.safetensors")
    (by decide)

/-- C4: for every Civitai URL the derived filename is `civitai_` followed by
the last path segment, then, for each of the query parameters `type`,
`format`, `size`, `fp` present (in that fixed order), an underscore and the
lowercased value, then `.safetensors`; the source's join-based computation
equals this specification, and the spec's example URL derives
`civitai_12345_model_safetensor.safetensors`. -/
theorem civitai_filename_derivation :
    (∀ url : Str, get_civitai_filename url = civitai_filename_spec url) ∧
    get_civitai_filename
        (S "https://civitai.com/api/download/models/12345?type=Model&format=SafeTensor") =
      S "civitai_12345_model_safetensor.safetensors" := by
  constructor
  · intro url
    simp only [get_civitai_filename, civitai_filename_spec]
    rw [pyJoin_cons,
      show (fun x : Str => S "_" ++ x) = (fun v : Str => '_' :: v) from rfl]
  · rfl

/-- C5: for every Replicate URL (query- and fragment-free, with at least two
path segments, so that a second-to-last path segment exists — the shape of
all replicate.delivery URLs) the derived filename is `replicate_lora_`
followed by the second-to-last path segment and `.safetensors`; the spec's
example URL derives `replicate_lora_abcdef123.safetensors`. -/
theorem replicate_filename_derivation :
    (∀ s : Str, '?' ∉ s → '#' ∉ s → 2 ≤ (pySplit '/' s).length →
      get_replicate_filename (S "https://replicate.delivery/" ++ s) =
        S "replicate_lora_" ++
          pyNeg2 (pySplit '/'
            (urlPathQuery (S "https://replicate.delivery/" ++ s)).1) ++
          S ".safetensors") ∧
    get_replicate_filename
        (S "https://replicate.delivery/pbxt/abcdef123/trained_model.tar") =
      S "replicate_lora_abcdef123.safetensors" := by
  constructor
  · intro s hq hh hlen
    have hnotq : '?' ∉ '/' :: s := by
      intro hm
      rcases List.mem_cons.mp hm with he | hm'
      · exact absurd he (by decide)
      · exact hq hm'
    have hpath : (urlPathQuery (S "https://replicate.delivery/" ++ s)).1 = '/' :: s := by
      show (splitAtFirst '?' (takeUntil '#' ('/' :: s))).1 = '/' :: s
      have h1 : splitAtFirst '#' s = (s, []) := splitAtFirst_not_mem _ _ hh
      have h2 : takeUntil '#' ('/' :: s) = '/' :: s := by
        simp [takeUntil, splitAtFirst, h1]
      rw [h2, splitAtFirst_not_mem _ _ hnotq]
    have hsplit : pySplit '/' (S "https://replicate.delivery/" ++ s) =
        S "https:" :: [] :: S "replicate.delivery" :: pySplit '/' s := by
      rw [show S "https://replicate.delivery/" ++ s =
        S "https:" ++ '/' :: ('/' :: (S "replicate.delivery" ++ '/' :: s)) from rfl]
      rw [pySplit_append_sep _ _ _ (by decide), pySplit_cons_sep,
        pySplit_append_sep _ _ _ (by decide)]
    unfold get_replicate_filename
    rw [hsplit, hpath, pySplit_cons_sep]
    have e1 : (S "https:" :: [] :: S "replicate.delivery" :: pySplit '/' s).length - 2 =
        ((pySplit '/' s).length - 2) + 1 + 1 + 1 := by
      simp only [List.length_cons]
      omega
    have e2 : (([] : Str) :: pySplit '/' s).length - 2 =
        ((pySplit '/' s).length - 2) + 1 := by
      simp only [List.length_cons]
      omega
    unfold pyNeg2
    rw [e1, e2]
    simp only [List.getD_cons_succ]
  · rfl

/-- Witness for C5: the theorem applied to the spec's example URL. -/
theorem replicate_filename_derivation_witness :
    get_replicate_filename
        (S "https://replicate.delivery/" ++ S "pbxt/abcdef123/trained_model.tar") =
      S "replicate_lora_" ++
        pyNeg2 (pySplit '/'
          (urlPathQuery
            (S "https://replicate.delivery/" ++ S "pbxt/abcdef123/trained_model.tar")).1) ++
        S ".safetensors" :=
  replicate_filename_derivation.1 (S "pbxt/abcdef123/trained_model.tar")
    (by decide) (by decide) (by decide)

/-- C6: every HuggingFace URL whose path splits into fewer than 5 segments
fails with the malformed-URL error (and no other error). -/
theorem hf_malformed_url_short :
    ∀ url : Str, (pySplit '/' (urlPathQuery url).1).length < 5 →
      extract_parts_from_huggingface_url url = .error .malformedUrl := by
  intro url h
  unfold extract_parts_from_huggingface_url
  rw [if_pos h]

/-- Witness for C6: the spec's example `https://huggingface.co/org/model`
raises the malformed-URL error. -/
theorem hf_malformed_url_short_witness :
    extract_parts_from_huggingface_url (S "https://huggingface.co/org/model") =
      .error .malformedUrl :=
  hf_malformed_url_short (S "https://huggingface.co/org/model") (by decide)

/-- C7 (amended): on the Replicate path (no cache hit), a fast-fetch timeout
aborts the fetch by propagating the raw `subprocess.TimeoutExpired` — it is
not wrapped into the Civitai-style failure errors — and the fast-fetch exit
status is never inspected: any exit code, zero or not, falls through to the
archive stage instead of raising the download-failed error. -/
theorem replicate_fetch_failure_behaviour (fs : FS) (pg : PgetBehavior)
    (tar : TarOutcome) (url : Str)
    (hmiss : FS.has fs (os_path_join COMFYUI_LORA_DIR (get_replicate_filename url)) = false) :
    (pg.outcome = .timeout →
      download_from_replicate fs pg tar url =
        (.error .timeoutExpired,
         if pg.wrote then
           fs.create (os_path_join HF_TEMP_DIR (get_replicate_filename url))
         else fs,
         [Ev.pgetRun url (os_path_join HF_TEMP_DIR (get_replicate_filename url))])) ∧
    (∀ c : Int, pg.outcome = .exit c →
      download_from_replicate fs pg tar url =
        replicate_tar_stage
          (if pg.wrote then
             fs.create (os_path_join HF_TEMP_DIR (get_replicate_filename url))
           else fs)
          tar (os_path_join COMFYUI_LORA_DIR (get_replicate_filename url))
          (os_path_join HF_TEMP_DIR (get_replicate_filename url))
          (get_replicate_filename url)
          [Ev.pgetRun url (os_path_join HF_TEMP_DIR (get_replicate_filename url))]) := by
  have hm' : ¬FS.has fs (os_path_join COMFYUI_LORA_DIR (get_replicate_filename url)) = true := by
    rw [hmiss]; simp
  refine ⟨fun ho => ?_, fun c ho => ?_⟩
  · unfold download_from_replicate
    rw [if_neg hm', ho]
  · unfold download_from_replicate
    rw [if_neg hm', ho]

/-- Counterexample for C7 as stated: a fast-fetch exit status of 1 on the
Replicate path does not raise the download-failed error — the fetch proceeds
to the archive stage and fails there (here: the scratch file is not a
readable tar). -/
theorem replicate_fetch_failure_behaviour_cex :
    (download_from_replicate ⟨[]⟩ ⟨.exit 1, false⟩ .openFail
        (S "https://replicate.delivery/pbxt/abc/model.tar")).1 =
      .error .tarOpenError ∧
    Err.tarOpenError ≠ Err.downloadFailed ∧
    Err.tarOpenError ≠ Err.downloadTimeout := ⟨rfl, by decide, by decide⟩

/-- Witness for C7: a timeout on a cache-missing Replicate fetch propagates
the raw subprocess timeout. -/
theorem replicate_fetch_failure_behaviour_witness :
    download_from_replicate ⟨[]⟩ ⟨.timeout, false⟩ .openFail
        (S "https://replicate.delivery/pbxt/abc/model.tar") =
      (.error .timeoutExpired, ⟨[]⟩,
       [Ev.pgetRun (S "https://replicate.delivery/pbxt/abc/model.tar")
         (S "TEMP_HF/replicate_lora_abc.safetensors")]) :=
  (replicate_fetch_failure_behaviour ⟨[]⟩ ⟨.timeout, false⟩ .openFail
    (S "https://replicate.delivery/pbxt/abc/model.tar") (by decide)).1 rfl

/-- C8 (amended): on the Replicate path (no cache hit, fast fetch returned),
an archive in which the entry `output/flux_train_replicate/lora.safetensors`
is absent fails with a `KeyError` propagated from `TarFile.extractfile`; the
archive-entry-missing `ValueError` of the source is raised only when the
entry exists but is not a regular file or link.  In both cases no file is
written at the final destination path. -/
theorem replicate_archive_missing_entry (fs : FS) (pg : PgetBehavior)
    (url : Str) (members : List TarMember) (c : Int)
    (hmiss : FS.has fs (os_path_join COMFYUI_LORA_DIR (get_replicate_filename url)) = false)
    (hpo : pg.outcome = .exit c) :
    (tarExtractfile members (S "output/flux_train_replicate/lora.safetensors") =
        .error () →
      download_from_replicate fs pg (.archive members) url =
        (.error .keyError,
         if pg.wrote then
           fs.create (os_path_join HF_TEMP_DIR (get_replicate_filename url))
         else fs,
         [Ev.pgetRun url (os_path_join HF_TEMP_DIR (get_replicate_filename url))]) ∧
      FS.has
        (if pg.wrote then
           fs.create (os_path_join HF_TEMP_DIR (get_replicate_filename url))
         else fs)
        (os_path_join COMFYUI_LORA_DIR (get_replicate_filename url)) = false) ∧
    (tarExtractfile members (S "output/flux_train_replicate/lora.safetensors") =
        .ok none →
      download_from_replicate fs pg (.archive members) url =
        (.error .archiveEntryMissing,
         if pg.wrote then
           fs.create (os_path_join HF_TEMP_DIR (get_replicate_filename url))
         else fs,
         [Ev.pgetRun url (os_path_join HF_TEMP_DIR (get_replicate_filename url))]) ∧
      FS.has
        (if pg.wrote then
           fs.create (os_path_join HF_TEMP_DIR (get_replicate_filename url))
         else fs)
        (os_path_join COMFYUI_LORA_DIR (get_replicate_filename url)) = false) := by
  have hm' : ¬FS.has fs (os_path_join COMFYUI_LORA_DIR (get_replicate_filename url)) = true := by
    rw [hmiss]; simp
  have habs : FS.has
      (if pg.wrote then
         fs.create (os_path_join HF_TEMP_DIR (get_replicate_filename url))
       else fs)
      (os_path_join COMFYUI_LORA_DIR (get_replicate_filename url)) = false := by
    by_cases hw : pg.wrote = true
    · rw [if_pos hw]
      exact FS.has_create_ne fs _ _ (replicate_dest_ne_temp url) hmiss
    · rw [if_neg hw]
      exact hmiss
  refine ⟨fun he => ⟨?_, habs⟩, fun he => ⟨?_, habs⟩⟩
  · unfold download_from_replicate
    rw [if_neg hm', hpo]
    dsimp only
    unfold replicate_tar_stage
    dsimp only
    rw [he]
  · unfold download_from_replicate
    rw [if_neg hm', hpo]
    dsimp only
    unfold replicate_tar_stage
    dsimp only
    rw [he]

/-- Counterexample for C8 as stated: an archive that simply lacks the entry
raises a `KeyError`, not the archive-entry-missing `ValueError`. -/
theorem replicate_archive_missing_entry_cex :
    (download_from_replicate ⟨[]⟩ ⟨.exit 0, true⟩
        (.archive [⟨S "something_else.txt", true⟩])
        (S "https://replicate.delivery/pbxt/abc/model.tar")).1 = .error .keyError ∧
    Err.keyError ≠ Err.archiveEntryMissing := ⟨rfl, by decide⟩

/-- Witness for C8: an archive whose only entry of the expected name is not a
regular file fails with the archive-entry-missing error, and no file exists
at the destination afterwards. -/
theorem replicate_archive_missing_entry_witness :
    download_from_replicate ⟨[]⟩ ⟨.exit 0, true⟩
        (.archive [⟨S "output/flux_train_replicate/lora.safetensors", false⟩])
        (S "https://replicate.delivery/pbxt/abc/model.tar") =
      (.error .archiveEntryMissing,
       FS.create ⟨[]⟩ (S "TEMP_HF/replicate_lora_abc.safetensors"),
       [Ev.pgetRun (S "https://replicate.delivery/pbxt/abc/model.tar")
         (S "TEMP_HF/replicate_lora_abc.safetensors")]) ∧
    FS.has (FS.create ⟨[]⟩ (S "TEMP_HF/replicate_lora_abc.safetensors"))
      (S "ComfyUI/models/loras/replicate_lora_abc.safetensors") = false :=
  (replicate_archive_missing_entry ⟨[]⟩ ⟨.exit 0, true⟩
    (S "https://replicate.delivery/pbxt/abc/model.tar")
    [⟨S "output/flux_train_replicate/lora.safetensors", false⟩] 0
    (by decide) rfl).2 rfl

/-- C9 (amended): on the Civitai path (no cache hit), a fast-fetch
subprocess exiting non-zero raises the download-failed error and a timeout
raises the download-timeout error; the source removes nothing on failure, so
the destination file is absent afterwards exactly when the fast-fetch tool
wrote nothing there (it downloads straight to the destination path, so a
partial write persists — the spec's documented stale-file gap). -/
theorem civitai_fetch_failures (fs : FS) (pg : PgetBehavior) (url : Str) (c : Int)
    (hmiss : FS.has fs (os_path_join COMFYUI_LORA_DIR (get_civitai_filename url)) = false) :
    (pg.outcome = .exit c → c ≠ 0 →
      download_from_civitai fs pg url =
        (.error .downloadFailed,
         if pg.wrote then
           fs.create (os_path_join COMFYUI_LORA_DIR (get_civitai_filename url))
         else fs,
         [Ev.pgetRun url (os_path_join COMFYUI_LORA_DIR (get_civitai_filename url))])) ∧
    (pg.outcome = .timeout →
      download_from_civitai fs pg url =
        (.error .downloadTimeout,
         if pg.wrote then
           fs.create (os_path_join COMFYUI_LORA_DIR (get_civitai_filename url))
         else fs,
         [Ev.pgetRun url (os_path_join COMFYUI_LORA_DIR (get_civitai_filename url))])) ∧
    (pg.wrote = false →
      FS.has
        (if pg.wrote then
           fs.create (os_path_join COMFYUI_LORA_DIR (get_civitai_filename url))
         else fs)
        (os_path_join COMFYUI_LORA_DIR (get_civitai_filename url)) = false) := by
  have hm' : ¬FS.has fs (os_path_join COMFYUI_LORA_DIR (get_civitai_filename url)) = true := by
    rw [hmiss]; simp
  refine ⟨fun ho hc => ?_, fun ho => ?_, fun hw => ?_⟩
  · unfold download_from_civitai
    rw [if_neg hm', ho]
    dsimp only
    rw [if_pos hc]
  · unfold download_from_civitai
    rw [if_neg hm', ho]
  · rw [hw]
    simp [hmiss]

/-- Counterexample for C9 as stated: when the fast-fetch tool leaves a
partial file at the destination (it downloads straight to the destination
path) and then exits non-zero, the fetch raises the download-failed error
but the destination file exists afterwards. -/
theorem civitai_fetch_failures_cex :
    (download_from_civitai ⟨[]⟩ ⟨.exit 1, true⟩
        (S "https://civitai.com/api/download/models/1")).1 = .error .downloadFailed ∧
    FS.has
      (download_from_civitai ⟨[]⟩ ⟨.exit 1, true⟩
        (S "https://civitai.com/api/download/models/1")).2.1
      (os_path_join COMFYUI_LORA_DIR
        (get_civitai_filename (S "https://civitai.com/api/download/models/1"))) =
      true := ⟨rfl, rfl⟩

/-- Witness for C9: a non-zero fast-fetch exit with nothing written raises
the download-failed error and leaves the destination absent. -/
theorem civitai_fetch_failures_witness :
    download_from_civitai ⟨[]⟩ ⟨.exit 2, false⟩
        (S "https://civitai.com/api/download/models/9") =
      (.error .downloadFailed, ⟨[]⟩,
       [Ev.pgetRun (S "https://civitai.com/api/download/models/9")
         (S "ComfyUI/models/loras/civitai_9.safetensors")]) :=
  (civitai_fetch_failures ⟨[]⟩ ⟨.exit 2, false⟩
    (S "https://civitai.com/api/download/models/9") 2 (by decide)).1 rfl (by decide)

/-- C10: every successful `update_workflow` writes `"nsfw, "` prepended to
the user-supplied negative prompt into both the `clip_l` and `t5xxl` fields
of the negative-prompt node `"57"`, and the user-supplied guidance scale
into the `guidance` field of both prompt nodes `"53"` and `"57"`. -/
theorem workflow_negative_prompt_and_guidance {F : Type} (wf wf' : JDict F)
    (k : Kwargs F) (h : update_workflow wf k = .ok wf') :
    getInput wf' (S "57") (S "clip_l") =
      some (.str (S "nsfw, " ++ k.negative_prompt)) ∧
    getInput wf' (S "57") (S "t5xxl") =
      some (.str (S "nsfw, " ++ k.negative_prompt)) ∧
    getInput wf' (S "57") (S "guidance") = some (.num k.guidance_scale) ∧
    getInput wf' (S "53") (S "guidance") = some (.num k.guidance_scale) := by
  unfold update_workflow at h
  cases e1 : updateInputs wf (S "53")
      [(S "clip_l", .str k.prompt), (S "t5xxl", .str k.prompt),
       (S "guidance", .num k.guidance_scale)] with
  | error e => rw [e1] at h; simp at h
  | ok wf1 =>
  rw [e1] at h
  dsimp only at h
  cases e2 : updateInputs wf1 (S "57")
      [(S "clip_l", .str (S "nsfw, " ++ k.negative_prompt)),
       (S "t5xxl", .str (S "nsfw, " ++ k.negative_prompt)),
       (S "guidance", .num k.guidance_scale)] with
  | error e => rw [e2] at h; simp at h
  | ok wf2 =>
  rw [e2] at h
  dsimp only at h
  cases e3 : updateInputs wf2 (S "16")
      [(S "image", match k.control_image_filename with
                   | some f => .str f
                   | none => .null)] with
  | error e => rw [e3] at h; simp at h
  | ok wf3 =>
  rw [e3] at h
  dsimp only at h
  cases e4 : updateInputs wf3 (S "14") [(S "strength", .num k.control_strength)] with
  | error e => rw [e4] at h; simp at h
  | ok wf4 =>
  rw [e4] at h
  dsimp only at h
  cases e5 : updateInputs wf4 (S "3")
      [(S "steps", .int k.steps), (S "noise_seed", .int k.seed),
       (S "seed", .int k.seed), (S "true_gs", .num k.guidance_scale),
       (S "image_to_image_strength", .num k.image_to_image_strength)] with
  | error e => rw [e5] at h; simp at h
  | ok wf5 =>
  rw [e5] at h
  dsimp only at h
  cases e6 : control_weights_map k.control_type with
  | error e => rw [e6] at h; simp at h
  | ok cw =>
  rw [e6] at h
  dsimp only at h
  cases e7 : updateInputs wf5 (S "13") [(S "controlnet_path", .str cw)] with
  | error e => rw [e7] at h; simp at h
  | ok wf6 =>
  rw [e7] at h
  dsimp only at h
  cases e8 : preprocessor_map
      (if k.control_type = S "depth" then k.depth_preprocessor
       else if k.control_type = S "soft_edge" then k.soft_edge_preprocessor
       else S "Canny") with
  | error e => rw [e8] at h; simp at h
  | ok pm =>
  rw [e8] at h
  dsimp only at h
  cases e9 : updateInputs wf6 (S "51") [(S "preprocessor", .str pm)] with
  | error e => rw [e9] at h; simp at h
  | ok wf7 =>
  rw [e9] at h
  dsimp only at h
  simp only [Except.ok.injEq] at h
  subst h
  obtain ⟨node5, inputs5, hn5, hi5, hw1⟩ := updateInputs_ok e1
  obtain ⟨node7, inputs7, hn7, hi7, hw2⟩ := updateInputs_ok e2
  have h57 : ∀ f2 : Str, getInput wf7 (S "57") f2 =
      dictGet (applySets inputs7
        [(S "clip_l", .str (S "nsfw, " ++ k.negative_prompt)),
         (S "t5xxl", .str (S "nsfw, " ++ k.negative_prompt)),
         (S "guidance", .num k.guidance_scale)]) f2 := by
    intro f2
    rw [getInput_update_other _ _ e9 (by decide),
        getInput_update_other _ _ e7 (by decide),
        getInput_update_other _ _ e5 (by decide),
        getInput_update_other _ _ e4 (by decide),
        getInput_update_other _ _ e3 (by decide),
        hw2, getInput_dictSet_node]
  have h53 : ∀ f2 : Str, getInput wf7 (S "53") f2 =
      dictGet (applySets inputs5
        [(S "clip_l", .str k.prompt), (S "t5xxl", .str k.prompt),
         (S "guidance", .num k.guidance_scale)]) f2 := by
    intro f2
    rw [getInput_update_other _ _ e9 (by decide),
        getInput_update_other _ _ e7 (by decide),
        getInput_update_other _ _ e5 (by decide),
        getInput_update_other _ _ e4 (by decide),
        getInput_update_other _ _ e3 (by decide),
        getInput_update_other _ _ e2 (by decide),
        hw1, getInput_dictSet_node]
  refine ⟨?_, ?_, ?_, ?_⟩
  · rw [h57]
    simp only [applySets]
    rw [dictGet_dictSet_ne _ _ _ _ (by decide), dictGet_dictSet_ne _ _ _ _ (by decide),
      dictGet_dictSet_self]
  · rw [h57]
    simp only [applySets]
    rw [dictGet_dictSet_ne _ _ _ _ (by decide), dictGet_dictSet_self]
  · rw [h57]
    simp only [applySets]
    rw [dictGet_dictSet_self]
  · rw [h53]
    simp only [applySets]
    rw [dictGet_dictSet_self]

/-- Witness for C10: the theorem applied to the concrete fixture workflow
and request inputs. -/
theorem workflow_negative_prompt_and_guidance_witness :
    getInput wfFixtureResult (S "57") (S "clip_l") =
      some (.str (S "nsfw, blurry")) ∧
    getInput wfFixtureResult (S "57") (S "t5xxl") =
      some (.str (S "nsfw, blurry")) ∧
    getInput wfFixtureResult (S "57") (S "guidance") = some (.num 3) ∧
    getInput wfFixtureResult (S "53") (S "guidance") = some (.num 3) :=
  workflow_negative_prompt_and_guidance wfFixture wfFixtureResult kwFixture rfl
